import Mathlib

/-!
Shallow embedding of the `better-revsocks` reverse SOCKS5 proxy agent
(`src/client/src/socks.rs`, `src/client/src/client.rs`, `src/client/src/main.rs`).

Bytes are modelled as `Nat` (all concrete values stay below 256).  A logical
stream is modelled by the bytes still unread on its input side together with
the ordered trace of observable actions the agent performed on it (writes and
write-half shutdowns).  Asynchronous reads that hit end of input are modelled
as `IOErrKind.eof` errors, matching `read_exact` failing with `UnexpectedEof`.
External effects (DNS resolution, TCP dialing, the elapsed time of the dial
future, and the outcome of `tokio::io::copy_bidirectional`) are supplied by a
`Net` oracle.
-/

namespace Revsocks

/-- An observable action the agent performs on a logical stream:
a write of a byte sequence, or a shutdown of the write half. -/
inductive Ev
| wr (bs : List Nat)
| shut
deriving DecidableEq, Repr

/-- A logical stream: bytes remaining to be read, and the trace of events
performed so far (in order). -/
structure Stream where
  inp : List Nat
  evs : List Ev
deriving DecidableEq, Repr

/-- Model of `AsyncReadExt::read_exact`: consume exactly `n` bytes, or fail
(`UnexpectedEof`) when fewer are available. -/
def readExact (n : Nat) (s : Stream) : Option (List Nat × Stream) :=
  if n ≤ s.inp.length then some (s.inp.take n, ⟨s.inp.drop n, s.evs⟩) else none

/-- Model of `AsyncWriteExt::write_all`: record the written bytes. -/
def writeS (bs : List Nat) (s : Stream) : Stream :=
  ⟨s.inp, s.evs ++ [Ev.wr bs]⟩

/-- Model of `AsyncWriteExt::shutdown`: record the shutdown of the write half
(reading from the stream remains possible afterwards, as in tokio). -/
def shutdownS (s : Stream) : Stream :=
  ⟨s.inp, s.evs ++ [Ev.shut]⟩

/-- I/O error kinds the embedded code distinguishes. -/
inductive IOErrKind
| eof
| notConnected
| unsupported
| connectionRefused
| invalidInput
deriving DecidableEq, Repr

/-- `ResponseCode` from `socks.rs` (possible SOCKS5 response codes). -/
inductive ResponseCode
| Success
| Failure
| ConnectionRefused
| CommandNotSupported
| AddrTypeNotSupported
deriving DecidableEq, Repr

/-- The discriminant values of `ResponseCode` (`Success = 0x00`, etc.). -/
def ResponseCode.toByte : ResponseCode → Nat
| .Success => 0x00
| .Failure => 0x01
| .ConnectionRefused => 0x05
| .CommandNotSupported => 0x07
| .AddrTypeNotSupported => 0x08

/-- `MerinoError` from `socks.rs`: an I/O error or a SOCKS-level error. -/
inductive MerinoError
| Io (k : IOErrKind)
| Socks (c : ResponseCode)
deriving DecidableEq, Repr

/-- `impl From<MerinoError> for ResponseCode` in `socks.rs`. -/
def MerinoError.toResponseCode : MerinoError → ResponseCode
| .Socks e => e
| .Io _ => .Failure

/-- `AddrType` from `socks.rs` (DST.addr variant types). -/
inductive AddrType
| V4
| Domain
| V6
deriving DecidableEq, Repr

/-- `AddrType::from`: parse a byte to an address type. -/
def AddrType.fromByte (n : Nat) : Option AddrType :=
  match n with
  | 1 => some .V4
  | 3 => some .Domain
  | 4 => some .V6
  | _ => none

/-- `SockCommand` from `socks.rs` (SOCKS5 CMD type). -/
inductive SockCommand
| Connect
| Bind
| UdpAssosiate
deriving DecidableEq, Repr

/-- `SockCommand::from`: parse a byte to a command. -/
def SockCommand.fromByte (n : Nat) : Option SockCommand :=
  match n with
  | 1 => some .Connect
  | 2 => some .Bind
  | 3 => some .UdpAssosiate
  | _ => none

/-- `User` from `socks.rs`.  The Rust code stores the username and password
as `String`s obtained by `String::from_utf8_lossy`; we keep the raw bytes
(table entries are stored as their UTF-8 bytes), so `User` equality is
byte-exact equality of both fields, as derived `PartialEq` gives in Rust. -/
structure User where
  username : List Nat
  password : List Nat
deriving DecidableEq, Repr

/-- `SocksReply::new` from `socks.rs`: the fixed 10-byte reply buffer
`[VER, REP, RSV, ATYP=1, BND.ADDR=0.0.0.0, BND.PORT=0]`.  The constructor
takes only the status; the request's address type is never consulted. -/
def SocksReply.new (status : ResponseCode) : List Nat :=
  [0x05, status.toByte, 0x00, 1, 0, 0, 0, 0, 0, 0]

/-- `SOCKSReq` from `socks.rs` (parsed proxy user request). -/
structure SOCKSReq where
  version : Nat
  command : SockCommand
  addr_type : AddrType
  addr : List Nat
  port : Nat
deriving DecidableEq, Repr

/-- `SOCKSReq::from_stream` from `socks.rs`.  Reads `[VER, CMD, RSV, ATYP]`;
note that on `VER ≠ 0x05` the code calls `stream.shutdown()` but does NOT
return, so parsing continues; unknown CMD or ATYP shut down and error.  Then
the variable-length address and the big-endian port are read. -/
def SOCKSReq.from_stream (s : Stream) : Except MerinoError SOCKSReq × Stream :=
  match readExact 4 s with
  | none => (.error (.Io .eof), s)
  | some (packet, s1) =>
    let s2 := if packet.getD 0 0 ≠ 0x05 then shutdownS s1 else s1
    match SockCommand.fromByte (packet.getD 1 0) with
    | none => (.error (.Socks .CommandNotSupported), shutdownS s2)
    | some command =>
      match AddrType.fromByte (packet.getD 3 0) with
      | none => (.error (.Socks .AddrTypeNotSupported), shutdownS s2)
      | some addr_type =>
        let addrRes : Option (List Nat × Stream) :=
          match addr_type with
          | .Domain =>
            match readExact 1 s2 with
            | none => none
            | some (dlen, s3) => readExact (dlen.getD 0 0) s3
          | .V4 => readExact 4 s2
          | .V6 => readExact 16 s2
        match addrRes with
        | none => (.error (.Io .eof), s2)
        | some (addr, s4) =>
          match readExact 2 s4 with
          | none => (.error (.Io .eof), s4)
          | some (portBytes, s5) =>
            let port := (portBytes.getD 0 0) * 256 + portBytes.getD 1 0
            (.ok ⟨packet.getD 0 0, command, addr_type, addr, port⟩, s5)

/-- IP addresses as produced by `addr_to_socket`. -/
inductive IpAddr
| v4 (a b c d : Nat)
| v6 (g0 g1 g2 g3 g4 g5 g6 g7 : Nat)
deriving DecidableEq, Repr

/-- A socket address (IP and port). -/
structure SocketAddr where
  ip : IpAddr
  port : Nat
deriving DecidableEq, Repr

/-- `addr_to_socket` from `socks.rs`: convert an address and `AddrType` to a
list of socket addresses.  For `Domain`, the code builds a `"host:port"`
string and calls `tokio::net::lookup_host`; DNS is external, so resolution is
supplied by the `lookupHost` oracle applied to the raw domain bytes and port. -/
def addr_to_socket (lookupHost : List Nat → Nat → Except IOErrKind (List SocketAddr))
    (addr_type : AddrType) (addr : List Nat) (port : Nat) :
    Except IOErrKind (List SocketAddr) :=
  match addr_type with
  | .V6 =>
    let g := fun x => (addr.getD (x * 2) 0) * 256 + addr.getD (x * 2 + 1) 0
    .ok [⟨.v6 (g 0) (g 1) (g 2) (g 3) (g 4) (g 5) (g 6) (g 7), port⟩]
  | .V4 => .ok [⟨.v4 (addr.getD 0 0) (addr.getD 1 0) (addr.getD 2 0) (addr.getD 3 0), port⟩]
  | .Domain => lookupHost addr port

/-- Models `tokio::net::TcpStream::connect` applied to a slice of socket
addresses (external library).  Per tokio's documentation, each address is
attempted in order until a connection succeeds; if none succeeds the error of
the last attempt is returned.  `connectOk` says which addresses accept. -/
def tcpConnect (connectOk : SocketAddr → Bool) :
    List SocketAddr → Except IOErrKind SocketAddr
  | [] => .error .invalidInput
  | a :: rest =>
    if connectOk a then .ok a
    else
      match rest with
      | [] => .error .connectionRefused
      | b :: tl => tcpConnect connectOk (b :: tl)

/-- Outcome of `tokio::io::copy_bidirectional` (external): either the pair of
byte counts copied in each direction, or an I/O error of some kind. -/
inductive SpliceRes
| ok (s_to_t t_to_s : Nat)
| err (k : IOErrKind)
deriving DecidableEq, Repr

/-- Oracle for the external effects `handle_client` performs. -/
structure Net where
  lookupHost : List Nat → Nat → Except IOErrKind (List SocketAddr)
  connectOk : SocketAddr → Bool
  dialElapsed : Nat
  splice : SpliceRes

/-- The effective upstream-dial timeout (ms) in `handle_client`:
the configured per-stream timeout, or 500 ms when unset. -/
def effective_timeout : Option Nat → Nat
| some t => t
| none => 500

namespace SOCKClient

/-- `SOCKClient::get_avalible_methods` from `socks.rs`: read `nmethods`
bytes one at a time, keeping (in client order) those contained in the
configured `auth_methods` list. -/
def get_avalible_methods (auth_methods : List Nat) :
    Nat → Stream → Except IOErrKind (List Nat) × Stream
  | 0, s => (.ok [], s)
  | n + 1, s =>
    match readExact 1 s with
    | none => (.error .eof, s)
    | some (m, s1) =>
      let b := m.getD 0 0
      match get_avalible_methods auth_methods n s1 with
      | (.error k, s2) => (.error k, s2)
      | (.ok rest, s2) =>
        (.ok (if auth_methods.contains b then b :: rest else rest), s2)

/-- `SOCKClient::auth` from `socks.rs`.  Selects the method (`0x02` preferred,
then `0x00`, else `0xFF` + shutdown + error).  In the USER/PASS branch it runs
the RFC 1929 subnegotiation; note that on a credential mismatch it writes
`[1, 1]` and shuts down but still returns `Ok(())`. -/
def auth (auth_methods : List Nat) (authed_users : List User) (auth_nmethods : Nat)
    (s : Stream) : Except MerinoError Unit × Stream :=
  match get_avalible_methods auth_methods auth_nmethods s with
  | (.error k, s1) => (.error (.Io k), s1)
  | (.ok methods, s1) =>
    if methods.contains 0x02 then
      let s2 := writeS [0x05, 0x02] s1
      match readExact 2 s2 with
      | none => (.error (.Io .eof), s2)
      | some (header, s3) =>
        let ulen := header.getD 1 0
        match readExact ulen s3 with
        | none => (.error (.Io .eof), s3)
        | some (username, s4) =>
          match readExact 1 s4 with
          | none => (.error (.Io .eof), s4)
          | some (plen, s5) =>
            match readExact (plen.getD 0 0) s5 with
            | none => (.error (.Io .eof), s5)
            | some (password, s6) =>
              let user : User := ⟨username, password⟩
              if authed_users.contains user then
                (.ok (), writeS [1, ResponseCode.Success.toByte] s6)
              else
                (.ok (), shutdownS (writeS [1, ResponseCode.Failure.toByte] s6))
    else if methods.contains 0x00 then
      (.ok (), writeS [0x05, 0x00] s1)
    else
      (.error (.Socks .Failure), shutdownS (writeS [0x05, 0xFF] s1))

/-- `SOCKClient::handle_client` from `socks.rs`: parse the request; on
CONNECT, resolve the address, dial the resolved list under
`timeout(effective_timeout, TcpStream::connect(..))` (a timeout maps to
`Socks(ConnectionRefused)`, a dial error to `Io`), send the success reply,
then splice, absorbing `NotConnected`; BIND and UDP ASSOCIATE fail with
`Io(Unsupported)`. -/
def handle_client (net : Net) (timeoutCfg : Option Nat) (s : Stream) :
    Except MerinoError Nat × Stream :=
  match SOCKSReq.from_stream s with
  | (.error e, s1) => (.error e, s1)
  | (.ok req, s1) =>
    match req.command with
    | .Connect =>
      match addr_to_socket net.lookupHost req.addr_type req.addr req.port with
      | .error k => (.error (.Io k), s1)
      | .ok sock_addr =>
        let time_out := effective_timeout timeoutCfg
        if time_out ≤ net.dialElapsed then
          (.error (.Socks .ConnectionRefused), s1)
        else
          match tcpConnect net.connectOk sock_addr with
          | .error k => (.error (.Io k), s1)
          | .ok _target =>
            let s2 := writeS (SocksReply.new .Success) s1
            match net.splice with
            | .err k =>
              if k = IOErrKind.notConnected then (.ok 0, s2)
              else (.error (.Io k), s2)
            | .ok _s_to_t t_to_s => (.ok t_to_s, s2)
    | .Bind => (.error (.Io .unsupported), s1)
    | .UdpAssosiate => (.error (.Io .unsupported), s1)

/-- `SOCKClient::init` from `socks.rs`: read `[VER, NMETHODS]`; on version
0x05 run `auth` then `handle_client`; otherwise shut down and return `Ok`. -/
def init (auth_methods : List Nat) (authed_users : List User)
    (timeoutCfg : Option Nat) (net : Net) (s : Stream) :
    Except MerinoError Unit × Stream :=
  match readExact 2 s with
  | none => (.error (.Io .eof), s)
  | some (header, s1) =>
    let socks_version := header.getD 0 0
    let auth_nmethods := header.getD 1 0
    if socks_version = 0x05 then
      match auth auth_methods authed_users auth_nmethods s1 with
      | (.error e, s2) => (.error e, s2)
      | (.ok _, s2) =>
        match handle_client net timeoutCfg s2 with
        | (.error e, s3) => (.error e, s3)
        | (.ok _, s3) => (.ok (), s3)
    else
      (.ok (), shutdownS s1)

end SOCKClient

/-- The per-stream configuration a `SOCKClient` is constructed with. -/
structure SOCKClientCfg where
  auth_methods : List Nat
  authed_users : List User
  timeoutCfg : Option Nat
deriving DecidableEq, Repr

/-- `SOCKClient::new_no_auth` from `socks.rs`: empty credential table,
method list `[NoAuth] = [0x00]`, and the given timeout. -/
def new_no_auth (timeoutCfg : Option Nat) : SOCKClientCfg :=
  { auth_methods := [0x00], authed_users := [], timeoutCfg := timeoutCfg }

/-- `MAGIC_BYTES` from `client.rs` / `main.rs`. -/
def MAGIC_BYTES : List Nat := [0x1b, 0xc3, 0xbd, 0x0f]

/-- The sequence of writes `ReverseProxyClient::handle_connection`
(`client.rs`) performs on the transport: `stream.write_all(&MAGIC_BYTES)`
first, then the yamux connection's frames (`connect_to_agent_server` in
`main.rs` is identical).  `muxFrames` stands for whatever the multiplexer
writes afterwards. -/
def handle_connection_writes (muxFrames : List (List Nat)) : List (List Nat) :=
  MAGIC_BYTES :: muxFrames

/-- The configuration of every per-stream SOCKS client the dispatcher spawns:
both `client.rs` line 63 and `main.rs` line 59 call
`SOCKClient::new_no_auth(stream.compat(), None)`. -/
def spawned_client_cfg : SOCKClientCfg := new_no_auth none

/-! ## Helper lemmas -/

/-- `readExact` never touches the event trace. -/
theorem readExact_evs {n : Nat} {s : Stream} {bs : List Nat} {s' : Stream}
    (h : readExact n s = some (bs, s')) : s'.evs = s.evs := by
  unfold readExact at h
  split at h
  · simp only [Option.some.injEq, Prod.mk.injEq] at h
    rw [← h.2]
  · exact absurd h (by simp)

/-- Reading exactly the length of a prefix consumes that prefix. -/
theorem readExact_append (u x : List Nat) (evs : List Ev) :
    readExact u.length ⟨u ++ x, evs⟩ = some (u, ⟨x, evs⟩) := by
  simp [readExact, List.take_left, List.drop_left]

/-- Reading the greeting's method list: when the stream holds the `offered`
bytes followed by `rest`, `get_avalible_methods` returns exactly the offered
methods filtered by membership in the configured list, in client order. -/
theorem gam_append (cfg offered rest : List Nat) (evs : List Ev) :
    SOCKClient.get_avalible_methods cfg offered.length ⟨offered ++ rest, evs⟩ =
      (.ok (offered.filter fun b => cfg.contains b), ⟨rest, evs⟩) := by
  induction offered with
  | nil => rfl
  | cons b bs ih =>
    have hr : readExact 1 ⟨b :: (bs ++ rest), evs⟩ =
        some ([b], ⟨bs ++ rest, evs⟩) := by
      simp [readExact]
    simp only [List.cons_append, List.length_cons]
    rw [SOCKClient.get_avalible_methods, hr]
    dsimp only
    rw [ih]
    simp [List.filter_cons]

/-- `get_avalible_methods` never touches the event trace. -/
theorem gam_evs (cfg : List Nat) (n : Nat) (s : Stream) :
    (SOCKClient.get_avalible_methods cfg n s).2.evs = s.evs := by
  induction n generalizing s with
  | zero => rfl
  | succ n ih =>
    rw [SOCKClient.get_avalible_methods]
    cases hr : readExact 1 s with
    | none => rfl
    | some p =>
      obtain ⟨m, s1⟩ := p
      have h1 : s1.evs = s.evs := readExact_evs hr
      dsimp only
      cases hg : SOCKClient.get_avalible_methods cfg n s1 with
      | mk r s2 =>
        have h2 : s2.evs = s1.evs := by
          have := ih s1
          rw [hg] at this
          exact this
        cases r with
        | error k => simp only [h2, h1]
        | ok rest => simp only [h2, h1]

/-- Every method `get_avalible_methods` returns is contained in the
configured method list. -/
theorem gam_ok_all (cfg : List Nat) (n : Nat) (s : Stream) (ms : List Nat) (s' : Stream)
    (h : SOCKClient.get_avalible_methods cfg n s = (.ok ms, s')) :
    ∀ b ∈ ms, cfg.contains b = true := by
  induction n generalizing s ms s' with
  | zero =>
    rw [SOCKClient.get_avalible_methods] at h
    simp only [Prod.mk.injEq, Except.ok.injEq] at h
    rw [← h.1]
    intro b hb
    exact absurd hb (List.not_mem_nil b)
  | succ n ih =>
    rw [SOCKClient.get_avalible_methods] at h
    cases hr : readExact 1 s with
    | none => rw [hr] at h; exact absurd h (by simp)
    | some p =>
      obtain ⟨m, s1⟩ := p
      rw [hr] at h
      dsimp only at h
      cases hg : SOCKClient.get_avalible_methods cfg n s1 with
      | mk r s2 =>
        rw [hg] at h
        cases r with
        | error k => exact absurd h (by simp)
        | ok rest =>
          dsimp only at h
          simp only [Prod.mk.injEq, Except.ok.injEq] at h
          intro b hb
          rw [← h.1] at hb
          by_cases hc : cfg.contains (m.getD 0 0) = true
          · rw [if_pos hc] at hb
            cases hb with
            | head => exact hc
            | tail _ htl => exact ih s1 rest s2 hg b htl
          · rw [if_neg hc] at hb
            exact ih s1 rest s2 hg b hb

/-! ## Claims -/

/-- Claim C3: for every session, the first 4 bytes the agent writes to the
transport are exactly `0x1B 0xC3 0xBD 0x0F`, written before any multiplexer
traffic (`handle_connection` writes `MAGIC_BYTES` before constructing the
yamux connection). -/
theorem C3_magic_prefix (muxFrames : List (List Nat)) :
    (handle_connection_writes muxFrames).flatten.take 4 = [0x1B, 0xC3, 0xBD, 0x0F] ∧
    (handle_connection_writes muxFrames).head? = some MAGIC_BYTES :=
  ⟨rfl, rfl⟩

/-- Claim C5: every SOCKS reply PDU the agent emits is exactly 10 bytes of
the form `[0x05, REP, 0x00, 0x01, 0, 0, 0, 0, 0, 0]`, for every reply code
`REP`; `SocksReply.new` takes only the status and never the request's
address type. -/
theorem C5_reply_shape (rep : ResponseCode) :
    (SocksReply.new rep).length = 10 ∧
    SocksReply.new rep = [0x05, rep.toByte, 0x00, 0x01, 0, 0, 0, 0, 0, 0] :=
  ⟨rfl, rfl⟩

/-- Claim C10: every per-stream SOCKS server the dispatcher spawns is
constructed with accepted methods exactly `[0x00]`, an empty credential
table, and an unset timeout; consequently `0x02` is never in the method
intersection, and the auth subnegotiation branch is unreachable: `auth`
only ever appends nothing, a `[0x05, 0x00]` reply, or a `[0x05, 0xFF]`
reply plus shutdown — never the `[0x05, 0x02]` selection. -/
theorem C10_no_auth_dispatch :
    spawned_client_cfg.auth_methods = [0x00]
  ∧ spawned_client_cfg.authed_users = []
  ∧ spawned_client_cfg.timeoutCfg = none
  ∧ (∀ (n : Nat) (s : Stream) (ms : List Nat) (s' : Stream),
      SOCKClient.get_avalible_methods spawned_client_cfg.auth_methods n s
        = (.ok ms, s') → ¬ (0x02 ∈ ms))
  ∧ (∀ (n : Nat) (s : Stream),
      (SOCKClient.auth spawned_client_cfg.auth_methods
          spawned_client_cfg.authed_users n s).2.evs = s.evs
    ∨ (SOCKClient.auth spawned_client_cfg.auth_methods
          spawned_client_cfg.authed_users n s).2.evs = s.evs ++ [Ev.wr [0x05, 0x00]]
    ∨ (SOCKClient.auth spawned_client_cfg.auth_methods
          spawned_client_cfg.authed_users n s).2.evs
        = s.evs ++ [Ev.wr [0x05, 0xFF], Ev.shut]) := by
  refine ⟨rfl, rfl, rfl, ?_, ?_⟩
  · intro n s ms s' h hmem
    have hall := gam_ok_all spawned_client_cfg.auth_methods n s ms s' h 0x02 hmem
    simp [spawned_client_cfg, new_no_auth] at hall
  · intro n s
    unfold SOCKClient.auth
    cases hg : SOCKClient.get_avalible_methods spawned_client_cfg.auth_methods n s with
    | mk r s1 =>
      have h1 : s1.evs = s.evs := by
        have h := gam_evs spawned_client_cfg.auth_methods n s
        rw [hg] at h
        exact h
      have hall := gam_ok_all spawned_client_cfg.auth_methods n s
      cases r with
      | error k =>
        left
        simp only [h1]
      | ok ms =>
        have hc2 : ms.contains 0x02 = false := by
          by_cases hb : ms.contains 0x02 = true
          · have : (0x02 : Nat) ∈ ms := by
              have := hb
              simpa using this
            have := hall ms s1 hg 0x02 this
            simp [spawned_client_cfg, new_no_auth] at this
          · simpa using hb
        dsimp only
        rw [if_neg (by simpa using hc2)]
        by_cases hc0 : ms.contains 0x00 = true
        · right; left
          rw [if_pos hc0]
          simp [writeS, h1]
        · right; right
          rw [if_neg (by simp at hc0; simp [hc0])]
          simp [writeS, shutdownS, h1]

/-- Witness for C10: a concrete run where the client offers exactly
`[0x02]` and the dispatcher's configuration filters it out. -/
theorem C10_no_auth_dispatch_witness :
    SOCKClient.get_avalible_methods spawned_client_cfg.auth_methods 1 ⟨[0x02], []⟩
      = (.ok [], ⟨[], []⟩) ∧ ¬ ((0x02 : Nat) ∈ ([] : List Nat)) :=
  ⟨rfl, C10_no_auth_dispatch.2.2.2.1 1 ⟨[0x02], []⟩ [] ⟨[], []⟩ rfl⟩

/-- Claim C4: the method-selection step writes `[0x05, 0x02]` when `0x02` is
in the intersection of client-offered and configured methods; otherwise
`[0x05, 0x00]` when `0x00` is in the intersection; otherwise `[0x05, 0xFF]`
followed by shutdown and an error result. -/
theorem C4_method_select (cfgMethods : List Nat) (users : List User)
    (offered rest : List Nat) :
    ((0x02 ∈ offered ∧ 0x02 ∈ cfgMethods) →
      (SOCKClient.auth cfgMethods users offered.length
          ⟨offered ++ rest, []⟩).2.evs.head? = some (Ev.wr [0x05, 0x02]))
  ∧ (¬ (0x02 ∈ offered ∧ 0x02 ∈ cfgMethods) → (0x00 ∈ offered ∧ 0x00 ∈ cfgMethods) →
      SOCKClient.auth cfgMethods users offered.length ⟨offered ++ rest, []⟩
        = (.ok (), ⟨rest, [Ev.wr [0x05, 0x00]]⟩))
  ∧ (¬ (0x02 ∈ offered ∧ 0x02 ∈ cfgMethods) → ¬ (0x00 ∈ offered ∧ 0x00 ∈ cfgMethods) →
      SOCKClient.auth cfgMethods users offered.length ⟨offered ++ rest, []⟩
        = (.error (.Socks .Failure), ⟨rest, [Ev.wr [0x05, 0xFF], Ev.shut]⟩)) := by
  have hgam := gam_append cfgMethods offered rest []
  have hmem : ∀ x : Nat,
      ((offered.filter fun b => cfgMethods.contains b).contains x = true)
        ↔ (x ∈ offered ∧ x ∈ cfgMethods) := by
    intro x
    simp [List.mem_filter]
  refine ⟨?_, ?_, ?_⟩
  · intro hm
    unfold SOCKClient.auth
    rw [hgam]
    dsimp only
    rw [if_pos ((hmem 0x02).mpr hm)]
    cases h2 : readExact 2 (writeS [0x05, 0x02] ⟨rest, []⟩) with
    | none => simp [writeS]
    | some p2 =>
      obtain ⟨header, s3⟩ := p2
      have e3 : s3.evs = [Ev.wr [0x05, 0x02]] := readExact_evs h2
      dsimp only
      cases h3 : readExact (header.getD 1 0) s3 with
      | none => simp [e3]
      | some p3 =>
        obtain ⟨username, s4⟩ := p3
        have e4 : s4.evs = [Ev.wr [0x05, 0x02]] := by rw [readExact_evs h3, e3]
        dsimp only
        cases h4 : readExact 1 s4 with
        | none => simp [e4]
        | some p4 =>
          obtain ⟨plen, s5⟩ := p4
          have e5 : s5.evs = [Ev.wr [0x05, 0x02]] := by rw [readExact_evs h4, e4]
          dsimp only
          cases h5 : readExact (plen.getD 0 0) s5 with
          | none => simp [e5]
          | some p5 =>
            obtain ⟨password, s6⟩ := p5
            have e6 : s6.evs = [Ev.wr [0x05, 0x02]] := by rw [readExact_evs h5, e5]
            dsimp only
            split
            · simp [writeS, e6]
            · simp [writeS, shutdownS, e6]
  · intro hn2 hm0
    unfold SOCKClient.auth
    rw [hgam]
    dsimp only
    rw [if_neg (by rw [hmem 0x02]; exact hn2)]
    rw [if_pos ((hmem 0x00).mpr hm0)]
    simp [writeS]
  · intro hn2 hn0
    unfold SOCKClient.auth
    rw [hgam]
    dsimp only
    rw [if_neg (by rw [hmem 0x02]; exact hn2)]
    rw [if_neg (by rw [hmem 0x00]; exact hn0)]
    simp [writeS, shutdownS]

/-- Witness for C4: with no credentials configured (methods `[0x00]`) and the
client offering `{0x00, 0x02}`, the agent selects `0x00`. -/
theorem C4_method_select_witness :
    SOCKClient.auth [0x00] [] 2 ⟨[0x00, 0x02] ++ [], []⟩
      = (.ok (), ⟨[], [Ev.wr [0x05, 0x00]]⟩) :=
  (C4_method_select [0x00] [] [0x00, 0x02] []).2.1 (by decide) (by decide)

/-- Counterexample to C2 as stated: credential table `{([97], [98])}`, client
authenticates with the mismatched pair `([99], [98])`.  The agent writes
`[0x01, 0x01]` and shuts down — but `auth` then returns `Ok`, so `init`
still reads and dispatches the following SOCKS CONNECT request: the upstream
is dialed and a success reply write is attempted on the same stream. -/
theorem C2_counterexample :
    SOCKClient.init [0x02] [⟨[97], [98]⟩] none
      ⟨fun _ _ => .ok [], fun _ => true, 0, .ok 0 0⟩
      ⟨[0x05, 0x01, 0x02, 0x01, 0x01, 99, 0x01, 98,
        0x05, 0x01, 0x00, 0x01, 127, 0, 0, 1, 0, 80], []⟩
      = (.ok (), ⟨[], [Ev.wr [0x05, 0x02], Ev.wr [0x01, 0x01], Ev.shut,
          Ev.wr [0x05, 0x00, 0x00, 0x01, 0, 0, 0, 0, 0, 0]]⟩) := rfl

/-- Claim C2 (amended): in the username/password subnegotiation a credential
pair byte-equal to a table entry yields `[0x01, 0x00]`, and any mismatch
yields `[0x01, 0x01]` followed by shutdown of the write half — but in the
mismatch case `auth` still returns `Ok` with the rest of the input unread,
so the server proceeds to read and dispatch a SOCKS request afterwards. -/
theorem C2_auth_subnegotiation (users : List User) (u p rest : List Nat)
    (hu : u.length ≤ 255) (hp : p.length ≤ 255) :
    (users.contains ⟨u, p⟩ = true →
      SOCKClient.auth [0x02] users 1
        ⟨[0x02] ++ [0x01, u.length] ++ u ++ [p.length] ++ p ++ rest, []⟩
        = (.ok (), ⟨rest, [Ev.wr [0x05, 0x02], Ev.wr [0x01, 0x00]]⟩))
  ∧ (users.contains ⟨u, p⟩ = false →
      SOCKClient.auth [0x02] users 1
        ⟨[0x02] ++ [0x01, u.length] ++ u ++ [p.length] ++ p ++ rest, []⟩
        = (.ok (), ⟨rest, [Ev.wr [0x05, 0x02], Ev.wr [0x01, 0x01], Ev.shut]⟩)) := by
  have hgam : SOCKClient.get_avalible_methods [0x02] 1
      ⟨0x02 :: (0x01 :: u.length :: (u ++ p.length :: (p ++ rest))), []⟩
      = (.ok [0x02], ⟨0x01 :: u.length :: (u ++ p.length :: (p ++ rest)), []⟩) := by
    rw [SOCKClient.get_avalible_methods]
    have hr : readExact 1 ⟨0x02 :: (0x01 :: u.length :: (u ++ p.length :: (p ++ rest))), []⟩
        = some ([0x02], ⟨0x01 :: u.length :: (u ++ p.length :: (p ++ rest)), []⟩) := by
      simp [readExact]
    rw [hr]
    rfl
  have h2 : readExact 2
      (writeS [0x05, 0x02] ⟨0x01 :: u.length :: (u ++ p.length :: (p ++ rest)), []⟩)
      = some ([0x01, u.length],
          ⟨u ++ p.length :: (p ++ rest), [Ev.wr [0x05, 0x02]]⟩) := by
    simp [readExact, writeS]
  have h3 : readExact u.length ⟨u ++ p.length :: (p ++ rest), [Ev.wr [0x05, 0x02]]⟩
      = some (u, ⟨p.length :: (p ++ rest), [Ev.wr [0x05, 0x02]]⟩) :=
    readExact_append u (p.length :: (p ++ rest)) [Ev.wr [0x05, 0x02]]
  have h4 : readExact 1 ⟨p.length :: (p ++ rest), [Ev.wr [0x05, 0x02]]⟩
      = some ([p.length], ⟨p ++ rest, [Ev.wr [0x05, 0x02]]⟩) := by
    simp [readExact]
  have h5 : readExact p.length ⟨p ++ rest, [Ev.wr [0x05, 0x02]]⟩
      = some (p, ⟨rest, [Ev.wr [0x05, 0x02]]⟩) :=
    readExact_append p rest [Ev.wr [0x05, 0x02]]
  constructor
  · intro hauth
    simp only [List.append_assoc, List.cons_append, List.nil_append]
    unfold SOCKClient.auth
    rw [hgam]
    dsimp only
    rw [if_pos (by decide), h2]
    dsimp only
    rw [show ([0x01, u.length].getD 1 0) = u.length from rfl, h3]
    dsimp only
    rw [h4]
    dsimp only
    rw [show ([p.length].getD 0 0) = p.length from rfl, h5]
    dsimp only
    rw [if_pos hauth]
    simp [writeS, ResponseCode.toByte]
  · intro hauth
    simp only [List.append_assoc, List.cons_append, List.nil_append]
    unfold SOCKClient.auth
    rw [hgam]
    dsimp only
    rw [if_pos (by decide), h2]
    dsimp only
    rw [show ([0x01, u.length].getD 1 0) = u.length from rfl, h3]
    dsimp only
    rw [h4]
    dsimp only
    rw [show ([p.length].getD 0 0) = p.length from rfl, h5]
    dsimp only
    rw [if_neg (by simpa using hauth)]
    simp [writeS, shutdownS, ResponseCode.toByte]

/-- Witness for C2: a correct pair and a mismatched pair, run concretely. -/
theorem C2_auth_subnegotiation_witness :
    SOCKClient.auth [0x02] [⟨[97], [98]⟩] 1
      ⟨[0x02] ++ [0x01, 1] ++ [97] ++ [1] ++ [98] ++ [], []⟩
      = (.ok (), ⟨[], [Ev.wr [0x05, 0x02], Ev.wr [0x01, 0x00]]⟩) :=
  (C2_auth_subnegotiation [⟨[97], [98]⟩] [97] [98] []
    (by decide) (by decide)).1 (by decide)

/-- Counterexample to C1 as stated: a CONNECT to `127.0.0.1:80` whose
upstream dial takes 1000 ms and so times out against the default 500 ms
bound.  `handle_client` fails with `Socks(ConnectionRefused)` but writes
nothing on the stream — the event trace stays empty, so no 10-byte
`REP = 0x05` reply is sent. -/
theorem C1_counterexample :
    SOCKClient.handle_client ⟨fun _ _ => .ok [], fun _ => true, 1000, .ok 0 0⟩ none
      ⟨[0x05, 0x01, 0x00, 0x01, 127, 0, 0, 1, 0, 80], []⟩
      = (.error (.Socks .ConnectionRefused), ⟨[], []⟩) := rfl

/-- Claim C1 (amended): on a CONNECT whose dial times out, `handle_client`
terminates the stream task with the error `Socks(ConnectionRefused)` (code
0x05) without writing any reply; on a dial error it terminates with that
`Io` error, also writing no reply.  The error only propagates to the
spawned task, which logs it; no `REP = 0x05` PDU reaches the stream. -/
theorem C1_dial_failure (net : Net) (t : Option Nat) (s s' : Stream)
    (req : SOCKSReq) (addrs : List SocketAddr)
    (hreq : SOCKSReq.from_stream s = (.ok req, s'))
    (hcmd : req.command = SockCommand.Connect)
    (haddr : addr_to_socket net.lookupHost req.addr_type req.addr req.port = .ok addrs) :
    (effective_timeout t ≤ net.dialElapsed →
      SOCKClient.handle_client net t s = (.error (.Socks .ConnectionRefused), s'))
  ∧ (net.dialElapsed < effective_timeout t →
      ∀ k, tcpConnect net.connectOk addrs = .error k →
        SOCKClient.handle_client net t s = (.error (.Io k), s')) := by
  unfold SOCKClient.handle_client
  rw [hreq]
  dsimp only
  rw [hcmd]
  dsimp only
  rw [haddr]
  dsimp only
  constructor
  · intro ht
    rw [if_pos ht]
  · intro ht k hk
    rw [if_neg (by omega), hk]

/-- Witness for C1: a concrete timed-out dial. -/
theorem C1_dial_failure_witness :
    SOCKClient.handle_client ⟨fun _ _ => .ok [], fun _ => true, 1000, .ok 0 0⟩ none
      ⟨[0x05, 0x01, 0x00, 0x01, 10, 0, 0, 1, 0, 80], []⟩
      = (.error (.Socks .ConnectionRefused), ⟨[], []⟩) :=
  (C1_dial_failure ⟨fun _ _ => .ok [], fun _ => true, 1000, .ok 0 0⟩ none
    ⟨[0x05, 0x01, 0x00, 0x01, 10, 0, 0, 1, 0, 80], []⟩ ⟨[], []⟩
    ⟨5, .Connect, .V4, [10, 0, 0, 1], 80⟩ [⟨.v4 10 0 0 1, 80⟩]
    rfl rfl rfl).1 (by decide)

/-- Claim C6 (code bug): on a request whose version byte is not 0x05
(here 0x04), `from_stream` shuts the write half down but does NOT return:
the request is still parsed and returned, and `handle_client` dispatches the
CONNECT — the upstream dial occurs and a success-reply write is attempted
after the shutdown, contradicting the intended immediate termination. -/
theorem C6_version_check_continues :
    (SOCKSReq.from_stream ⟨[0x04, 0x01, 0x00, 0x01, 127, 0, 0, 1, 0, 80], []⟩
      = (.ok ⟨4, .Connect, .V4, [127, 0, 0, 1], 80⟩, ⟨[], [Ev.shut]⟩))
  ∧ (SOCKClient.handle_client ⟨fun _ _ => .ok [], fun _ => true, 0, .ok 0 0⟩ none
      ⟨[0x04, 0x01, 0x00, 0x01, 127, 0, 0, 1, 0, 80], []⟩
      = (.ok 0, ⟨[], [Ev.shut, Ev.wr (SocksReply.new .Success)]⟩)) :=
  ⟨rfl, rfl⟩

/-- Counterexample to C7 as stated: two resolved addresses, the first
refuses, the second accepts — the connector dials past the first entry and
connects to the second. -/
theorem C7_counterexample :
    tcpConnect (fun a => decide (a = ⟨.v4 10 0 0 2, 80⟩))
      [⟨.v4 10 0 0 1, 80⟩, ⟨.v4 10 0 0 2, 80⟩]
      = .ok ⟨.v4 10 0 0 2, 80⟩ := rfl

/-- Claim C7 (amended): the code passes the whole resolved address list to
`TcpStream::connect`, which per tokio semantics attempts the entries in
order and connects to the first accepting one; later entries ARE dialed when
earlier ones fail, and only if every entry fails does the dial error. -/
theorem C7_first_success (connectOk : SocketAddr → Bool) (l : List SocketAddr)
    (h : l ≠ []) :
    tcpConnect connectOk l
      = match l.find? connectOk with
        | some a => .ok a
        | none => .error .connectionRefused := by
  induction l with
  | nil => exact absurd rfl h
  | cons a rest ih =>
    rw [tcpConnect.eq_def]
    dsimp only
    cases hc : connectOk a with
    | true =>
      rw [List.find?_cons_of_pos rest hc]
      rfl
    | false =>
      rw [List.find?_cons_of_neg rest (by simp [hc])]
      cases rest with
      | nil => rfl
      | cons b tl => exact ih (by simp)

/-- Witness for C7: with a single address that refuses, the dial errors. -/
theorem C7_first_success_witness :
    tcpConnect (fun _ => false) [⟨.v4 127 0 0 1, 9⟩] = .error .connectionRefused :=
  C7_first_success (fun _ => false) [⟨.v4 127 0 0 1, 9⟩] (by simp)

/-- On the CONNECT path, once the dial beats the effective timeout, the rest
of `handle_client` is the dial result followed by the reply and splice — and
it does not depend on the configured timeout. -/
theorem handle_client_connect_dial (net : Net) (t : Option Nat) (s s' : Stream)
    (req : SOCKSReq) (addrs : List SocketAddr)
    (hreq : SOCKSReq.from_stream s = (.ok req, s'))
    (hcmd : req.command = SockCommand.Connect)
    (haddr : addr_to_socket net.lookupHost req.addr_type req.addr req.port = .ok addrs)
    (ht : net.dialElapsed < effective_timeout t) :
    SOCKClient.handle_client net t s
      = match tcpConnect net.connectOk addrs with
        | .error k => (.error (.Io k), s')
        | .ok _ =>
          match net.splice with
          | .err k =>
            if k = IOErrKind.notConnected then (.ok 0, writeS (SocksReply.new .Success) s')
            else (.error (.Io k), writeS (SocksReply.new .Success) s')
          | .ok _s_to_t t_to_s => (.ok t_to_s, writeS (SocksReply.new .Success) s') := by
  unfold SOCKClient.handle_client
  rw [hreq]
  dsimp only
  rw [hcmd]
  dsimp only
  rw [haddr]
  dsimp only
  rw [if_neg (by omega)]

/-- Claim C8: when the per-stream timeout is unset, the upstream CONNECT
dial is bounded by 500 ms — `effective_timeout none = 500`, and the dial
times out exactly when it would take at least 500 ms — and the timeout wraps
only the dial: once the dial beats the bound, the configured timeout value
has no influence on the rest of the stream's processing (handshake parsing
happened before it and splicing after it, both timeout-free). -/
theorem C8_default_timeout (net : Net) (t1 t2 : Option Nat) (s s' : Stream)
    (req : SOCKSReq) (addrs : List SocketAddr)
    (hreq : SOCKSReq.from_stream s = (.ok req, s'))
    (hcmd : req.command = SockCommand.Connect)
    (haddr : addr_to_socket net.lookupHost req.addr_type req.addr req.port = .ok addrs) :
    effective_timeout none = 500
  ∧ (500 ≤ net.dialElapsed ↔
      SOCKClient.handle_client net none s = (.error (.Socks .ConnectionRefused), s'))
  ∧ (net.dialElapsed < effective_timeout t1 → net.dialElapsed < effective_timeout t2 →
      SOCKClient.handle_client net t1 s = SOCKClient.handle_client net t2 s) := by
  refine ⟨rfl, ⟨?_, ?_⟩, ?_⟩
  · intro h5
    unfold SOCKClient.handle_client
    rw [hreq]
    dsimp only
    rw [hcmd]
    dsimp only
    rw [haddr]
    dsimp only
    rw [if_pos (show effective_timeout none ≤ net.dialElapsed from h5)]
  · intro hcl
    by_contra h5
    push_neg at h5
    have hmain := handle_client_connect_dial net none s s' req addrs hreq hcmd haddr
      (by simpa [effective_timeout] using h5)
    rw [hmain] at hcl
    cases hdial : tcpConnect net.connectOk addrs with
    | error k => rw [hdial] at hcl; simp at hcl
    | ok target =>
      rw [hdial] at hcl
      cases hsp : net.splice with
      | ok a b => rw [hsp] at hcl; simp at hcl
      | err k =>
        rw [hsp] at hcl
        by_cases hk : k = IOErrKind.notConnected
        · simp [hk] at hcl
        · simp [hk] at hcl
  · intro ht1 ht2
    rw [handle_client_connect_dial net t1 s s' req addrs hreq hcmd haddr ht1,
      handle_client_connect_dial net t2 s s' req addrs hreq hcmd haddr ht2]

/-- Witness for C8: a 600 ms dial against the unset (500 ms) timeout. -/
theorem C8_default_timeout_witness :
    SOCKClient.handle_client ⟨fun _ _ => .ok [], fun _ => true, 600, .ok 0 0⟩ none
      ⟨[0x05, 0x01, 0x00, 0x01, 10, 1, 1, 1, 0, 80], []⟩
      = (.error (.Socks .ConnectionRefused), ⟨[], []⟩) :=
  ((C8_default_timeout ⟨fun _ _ => .ok [], fun _ => true, 600, .ok 0 0⟩ none none
    ⟨[0x05, 0x01, 0x00, 0x01, 10, 1, 1, 1, 0, 80], []⟩ ⟨[], []⟩
    ⟨5, .Connect, .V4, [10, 1, 1, 1], 80⟩ [⟨.v4 10 1 1 1, 80⟩]
    rfl rfl rfl).2.1).mp (by decide)

/-- Claim C9: during splicing, an I/O error of kind `NotConnected` is
absorbed — the per-stream task completes successfully with `Ok 0` — while
every other I/O error during splicing terminates the task with that error. -/
theorem C9_splice_errors (net : Net) (t : Option Nat) (s s' : Stream)
    (req : SOCKSReq) (addrs : List SocketAddr) (target : SocketAddr)
    (hreq : SOCKSReq.from_stream s = (.ok req, s'))
    (hcmd : req.command = SockCommand.Connect)
    (haddr : addr_to_socket net.lookupHost req.addr_type req.addr req.port = .ok addrs)
    (ht : net.dialElapsed < effective_timeout t)
    (hdial : tcpConnect net.connectOk addrs = .ok target) :
    (net.splice = .err .notConnected →
      SOCKClient.handle_client net t s = (.ok 0, writeS (SocksReply.new .Success) s'))
  ∧ (∀ k, k ≠ IOErrKind.notConnected → net.splice = .err k →
      SOCKClient.handle_client net t s
        = (.error (.Io k), writeS (SocksReply.new .Success) s')) := by
  have hmain := handle_client_connect_dial net t s s' req addrs hreq hcmd haddr ht
  rw [hdial] at hmain
  constructor
  · intro hsp
    rw [hsp] at hmain
    simpa using hmain
  · intro k hk hsp
    rw [hsp] at hmain
    simpa [hk] using hmain

/-- Witness for C9: a concrete splice that fails with `NotConnected` and is
absorbed. -/
theorem C9_splice_errors_witness :
    SOCKClient.handle_client ⟨fun _ _ => .ok [], fun _ => true, 0, .err .notConnected⟩ none
      ⟨[0x05, 0x01, 0x00, 0x01, 127, 0, 0, 1, 0, 80], []⟩
      = (.ok 0, writeS (SocksReply.new .Success) ⟨[], []⟩) :=
  (C9_splice_errors ⟨fun _ _ => .ok [], fun _ => true, 0, .err .notConnected⟩ none
    ⟨[0x05, 0x01, 0x00, 0x01, 127, 0, 0, 1, 0, 80], []⟩ ⟨[], []⟩
    ⟨5, .Connect, .V4, [127, 0, 0, 1], 80⟩ [⟨.v4 127 0 0 1, 80⟩] ⟨.v4 127 0 0 1, 80⟩
    rfl rfl rfl (by decide) rfl).1 rfl

end Revsocks
